import Mathlib

/-!
Verification of the spec of the `interceptors` repository against its code.

Part 1 embeds `src/src/utils/getUrlByRequestOptions.ts` (the canonical URL
resolver).  JavaScript truthiness of optional fields is modelled explicitly:
an optional string is truthy when present and nonempty, an optional number
is truthy when present and nonzero.  Part 2 models the Request Lifecycle
Controller from the spec (its implementation, `NodeClientRequest.ts`, is not
among the provided sources; only its test file is).
-/

namespace Interceptors

/-- Abstraction of a WHATWG `URL` instance: we keep its serialized `href`
and its `protocol` component (the only fields the resolver reads). -/
structure URL where
  href : String
  protocol : String
deriving Repr, DecidableEq

/-- Data of a connection agent (`http.Agent` / `https.Agent`) as read by the
resolver: its `protocol` field, its `options.port`, and its `defaultPort`. -/
structure AgentData where
  protocol : Option String
  optionsPort : Option Nat
  defaultPort : Option Nat
deriving Repr, DecidableEq

/-- The `agent` field of Node request options: absent, a boolean
(`agent: false` disables pooling), or an actual `Agent` instance. -/
inductive AgentField where
  | absent : AgentField
  | boolean (b : Bool) : AgentField
  | instanceAgent (a : AgentData) : AgentField
deriving Repr, DecidableEq

/-- The option bag consumed by the resolver
(`RequestOptions & RequestSelf` in the source). -/
structure ResolvedRequestOptions where
  protocol : Option String := none
  host : Option String := none
  hostname : Option String := none
  port : Option Nat := none
  path : Option String := none
  auth : Option String := none
  cert : Option String := none
  agent : AgentField := AgentField.absent
  uri : Option URL := none
deriving Repr, DecidableEq

/-- JavaScript truthiness of an optional string: present and nonempty. -/
def jsTruthyStr : Option String → Bool
  | some s => s != ""
  | none => false

/-- JavaScript truthiness of an optional number: present and nonzero. -/
def jsTruthyNat : Option Nat → Bool
  | some n => n != 0
  | none => false

/-- `DEFAULT_PATH` constant of the source. -/
def DEFAULT_PATH : String := "/"

/-- `DEFAULT_PROTOCOL` constant of the source. -/
def DEFAULT_PROTOCOL : String := "http:"

/-- `DEFAULT_HOST` constant of the source. -/
def DEFAULT_HOST : String := "localhost"

/-- `SSL_PORT` constant of the source. -/
def SSL_PORT : Nat := 443

/-- `getAgent`: returns the `agent` option only when it is an actual
`Agent` instance (`options.agent instanceof Agent ? options.agent :
undefined`). -/
def getAgent (options : ResolvedRequestOptions) : Option AgentData :=
  match options.agent with
  | AgentField.instanceAgent a => some a
  | _ => none

/-- The regex match `hostname.match(/:(\d+)$/)`: a colon followed by one or
more digits at the end of the string.  Returns the captured digit group. -/
def matchPortSuffix (s : String) : Option (List Char) :=
  let rev := s.data.reverse
  let ds := rev.takeWhile Char.isDigit
  let rest := rev.dropWhile Char.isDigit
  if ds ≠ [] ∧ rest.head? = some ':' then some ds.reverse else none

/-- `hostname.replace(/:\d+$/, '')`: strip a trailing `:digits` suffix. -/
def stripTrailingPort (s : String) : String :=
  let rev := s.data.reverse
  let ds := rev.takeWhile Char.isDigit
  let rest := rev.dropWhile Char.isDigit
  if ds ≠ [] ∧ rest.head? = some ':' then String.mk rest.tail.reverse else s

/-- JavaScript `Number` applied to a nonempty string of decimal digits. -/
def digitsToNat (l : List Char) : Nat :=
  l.foldl (fun a c => a * 10 + (c.toNat - 48)) 0

/-- The hostname-embedded port: the digits captured by `/:(\d+)$/` on
`options.hostname`, converted by `Number` (source lines 53-60).  `none`
falls through to the agent-derived port. -/
def portFromHostname (options : ResolvedRequestOptions) : Option Nat :=
  match options.hostname with
  | some h => (matchPortSuffix h).map digitsToNat
  | none => none

/-- The agent-derived port: the agent's truthy `options.port`, then its
truthy `defaultPort` (source lines 62-71). -/
def portFromAgent (options : ResolvedRequestOptions) : Option Nat :=
  match getAgent options with
  | some a =>
    if jsTruthyNat a.optionsPort then a.optionsPort
    else if jsTruthyNat a.defaultPort then a.defaultPort
    else none
  | none => none

/-- `getPortByRequestOptions`: a truthy explicit `port` wins
(`if (options.port) return Number(options.port)`); else the
hostname-embedded port; else the agent-derived port; else `undefined`. -/
def getPortByRequestOptions (options : ResolvedRequestOptions) : Option Nat :=
  if jsTruthyNat options.port then options.port
  else
    match portFromHostname options with
    | some n => some n
    | none => portFromAgent options

/-- `getProtocolByRequestOptions`: truthy explicit `protocol`; else the
agent's truthy `protocol`; else `https:` when `options.cert || port === 443`;
else `options.uri?.protocol || DEFAULT_PROTOCOL`. -/
def getProtocolByRequestOptions (options : ResolvedRequestOptions) : String :=
  if jsTruthyStr options.protocol then options.protocol.getD ""
  else
    let agentProtocol := (getAgent options).bind (fun a => a.protocol)
    if jsTruthyStr agentProtocol then agentProtocol.getD ""
    else
      let port := getPortByRequestOptions options
      let isSecureRequest := jsTruthyStr options.cert || port == some SSL_PORT
      if isSecureRequest then "https:"
      else
        let uriProtocol := options.uri.map (fun u => u.protocol)
        if jsTruthyStr uriProtocol then uriProtocol.getD "" else DEFAULT_PROTOCOL

/-- `getHostByRequestOptions`: when `hostname != null`, strip a trailing
`:port` from it; else a truthy `host`, else `DEFAULT_HOST`. -/
def getHostByRequestOptions (options : ResolvedRequestOptions) : String :=
  match options.hostname with
  | some h => stripTrailingPort h
  | none =>
    match options.host with
    | some h => if h != "" then h else DEFAULT_HOST
    | none => DEFAULT_HOST

/-- Credentials returned by `getAuthByRequestOptions`.  `password` is
`undefined` when the auth string holds no colon (`auth.split(':')[1]`). -/
structure Credentials where
  username : String
  password : Option String
deriving Repr, DecidableEq

/-- Splitting a character list at every occurrence of a character, as
JavaScript `String.prototype.split` with a single-character separator. -/
def splitOnChar (c : Char) : List Char → List (List Char)
  | [] => [[]]
  | x :: xs =>
    let r := splitOnChar c xs
    if x = c then [] :: r
    else
      match r with
      | [] => [[x]]
      | y :: ys => (x :: y) :: ys

/-- `getAuthByRequestOptions`: for a truthy `auth`, split on `:` and take
the first two pieces as username and password. -/
def getAuthByRequestOptions (options : ResolvedRequestOptions) :
    Option Credentials :=
  if jsTruthyStr options.auth then
    let parts := splitOnChar ':' (options.auth.getD "").data
    some { username := String.mk (parts.headD [])
           password := (parts.drop 1).head?.map String.mk }
  else none

/-- `String.prototype.startsWith` over character lists: the first argument
is the pattern. -/
def listBeginsWith : List Char → List Char → Bool
  | [], _ => true
  | _ :: _, [] => false
  | x :: xs, y :: ys => x == y && listBeginsWith xs ys

/-- `host.includes(c)` for a single character. -/
def strContainsChar (s : String) (c : Char) : Bool :=
  s.data.contains c

/-- `s.startsWith(pat)`. -/
def strBeginsWith (s pat : String) : Bool :=
  listBeginsWith pat.data s.data

/-- `s.endsWith(pat)`. -/
def strFinishesWith (s pat : String) : Bool :=
  listBeginsWith pat.data.reverse s.data.reverse

/-- `isRawIPv6Address`: the host contains `:`, does not start with `[`,
and does not end with `]`. -/
def isRawIPv6Address (host : String) : Bool :=
  strContainsChar host ':' && !strBeginsWith host "[" && !strFinishesWith host "]"

/-- `getHostname`: bracket a raw IPv6 host; append `:port` only when a
port was resolved. -/
def getHostname (host : String) (port : Option Nat) : String :=
  let portString :=
    match port with
    | some p => ":" ++ toString p
    | none => ""
  if isRawIPv6Address host then "[" ++ host ++ "]" ++ portString
  else
    match port with
    | none => host
    | some _ => host ++ portString

/-- The error raised when the assembled URL string is not a valid absolute
URL (the spec's `UrlConstructionError`); carries the offending string. -/
structure UrlConstructionError where
  input : String
deriving Repr, DecidableEq

/-- Modelled from the spec: the WHATWG `URL` constructor used by the
resolver is platform code outside this repository.  We model "syntactically
valid absolute URL" as: a nonempty alphabetic scheme, followed by `://`,
followed by a nonempty authority (the part before the first `/`) whose
host portion (after any `user:password@` credentials) is nonempty, with no
space characters in the authority. -/
def isValidAbsoluteUrlString (s : String) : Bool :=
  let cs := s.data
  let scheme := cs.takeWhile Char.isAlpha
  let rest := cs.dropWhile Char.isAlpha
  scheme != [] &&
    (match rest with
     | ':' :: '/' :: '/' :: tail =>
       let authority := tail.takeWhile (fun c => c != '/')
       let hostPart := ((splitOnChar '@' authority).getLast?).getD []
       hostPart != [] && authority.all (fun c => c != ' ')
     | _ => false)

/-- The string assembled by `getUrlByRequestOptions` for a bag without a
pre-built URI: `protocol + "//" + authString + hostname + path`, where the
auth string renders `user:password@` (a missing password renders as the
JS string `"undefined"`, as the template literal does). -/
def assembledUrlString (options : ResolvedRequestOptions) : String :=
  getProtocolByRequestOptions options ++ "//" ++
    (match getAuthByRequestOptions options with
     | some c => c.username ++ ":" ++ c.password.getD "undefined" ++ "@"
     | none => "") ++
    getHostname (getHostByRequestOptions options) (getPortByRequestOptions options) ++
    (if jsTruthyStr options.path then options.path.getD "" else DEFAULT_PATH)

/-- `getUrlByRequestOptions`: an explicit pre-built `uri` is returned
verbatim (`new URL(options.uri.href)` round-trips a `URL` instance);
otherwise protocol, host, port, hostname, path and credentials are resolved,
assembled by `assembledUrlString`, and parsed as an absolute URL. -/
def getUrlByRequestOptions (options : ResolvedRequestOptions) :
    Except UrlConstructionError URL :=
  match options.uri with
  | some uri => Except.ok uri
  | none =>
    if isValidAbsoluteUrlString (assembledUrlString options) then
      Except.ok { href := assembledUrlString options
                  protocol := getProtocolByRequestOptions options }
    else
      Except.error { input := assembledUrlString options }

/-!
Part 2: the Request Lifecycle Controller.

Modelled from the spec: the controller implementation
(`NodeClientRequest.ts`) is not among the provided sources — only its test
file is — so this model follows the spec's §4.2/§4.3 contract: body chunks
are buffered before `end`; `end` freezes the body, runs the inspection
listeners sequentially in registration order (each listener is a sequence
of `respondWith` calls); the first recorded descriptor wins; a recorded
mock yields a synthesized "response" event and the transport is never
opened; otherwise the transport is opened once, the buffered chunks are
replayed in order, and its response or error is relayed verbatim.  A
listener is abstracted by the sequence of `respondWith` calls it makes.
-/

namespace Lifecycle

/-- A mocked response: status, status text, headers, body chunks
(the spec's `ResponseDescriptor`). -/
structure ResponseDescriptor where
  status : Nat
  statusText : String
  headers : List (String × String)
  body : List String
deriving Repr, DecidableEq

/-- Kind of a transport-level error (the spec's `InterceptedError` kinds). -/
inductive InterceptedErrorKind where
  | dnsNotFound : InterceptedErrorKind
  | connectionRefused : InterceptedErrorKind
  | other : InterceptedErrorKind
deriving Repr, DecidableEq

/-- A transport-level error with its metadata (the spec's
`InterceptedError`). -/
structure InterceptedError where
  kind : InterceptedErrorKind
  syscall : String
deriving Repr, DecidableEq

/-- An error surfaced on the controller's "error" event: either a URL
construction failure or a transport failure (spec §7 taxonomy). -/
inductive RequestError where
  | urlConstruction (e : Interceptors.UrlConstructionError) : RequestError
  | transport (e : InterceptedError) : RequestError
deriving Repr, DecidableEq

/-- A terminal event emitted by the controller: "response" or "error". -/
inductive ControllerEvent where
  | response (r : ResponseDescriptor) : ControllerEvent
  | error (e : RequestError) : ControllerEvent
deriving Repr, DecidableEq

/-- Lifecycle states of one intercepted request (spec §4.3). -/
inductive LifecycleState where
  | created : LifecycleState
  | inspecting : LifecycleState
  | responded : LifecycleState
  | errored : LifecycleState
deriving Repr, DecidableEq

/-- Observable state of one lifecycle controller: its state, the buffered
body, the recorded resolution outcome (`some` = Mocked, `none` =
Passthrough), the events emitted so far, the number of transport-open
calls, and the chunks delivered to the transport. -/
structure Controller where
  state : LifecycleState
  requestBody : List String
  outcome : Option ResponseDescriptor
  events : List ControllerEvent
  transportOpenCalls : Nat
  transportBody : List String
deriving Repr, DecidableEq

/-- A freshly constructed controller. -/
def Controller.initial : Controller :=
  { state := LifecycleState.created
    requestBody := []
    outcome := none
    events := []
    transportOpenCalls := 0
    transportBody := [] }

/-- `write(chunk)`: buffers the chunk while the request is still open;
a no-op in every later state. -/
def writeChunk (c : Controller) (chunk : String) : Controller :=
  if c.state = LifecycleState.created then
    { c with requestBody := c.requestBody ++ [chunk] }
  else c

/-- The mock-setting operation (`respondWith`): records the descriptor as
the resolution outcome exactly once, only during inspection; a no-op
otherwise. -/
def respondWith (c : Controller) (r : ResponseDescriptor) : Controller :=
  if c.state = LifecycleState.inspecting ∧ c.outcome = none then
    { c with outcome := some r }
  else c

/-- Runs one inspection listener: the sequence of `respondWith` calls it
makes, in order. -/
def runListener (c : Controller) (l : List ResponseDescriptor) : Controller :=
  l.foldl respondWith c

/-- Runs the inspection emission: every registered listener in
registration order, each awaited before the next. -/
def runInspection (c : Controller) (listeners : List (List ResponseDescriptor)) :
    Controller :=
  listeners.foldl runListener c

/-- Opens the real transport: counts the open call, replays the buffered
body in order, and relays the transport's response or error verbatim. -/
def openTransport (c : Controller)
    (transport : Except InterceptedError ResponseDescriptor) : Controller :=
  match transport with
  | Except.ok r =>
    { c with
      state := LifecycleState.responded
      transportOpenCalls := c.transportOpenCalls + 1
      transportBody := c.requestBody
      events := c.events ++ [ControllerEvent.response r] }
  | Except.error e =>
    { c with
      state := LifecycleState.errored
      transportOpenCalls := c.transportOpenCalls + 1
      transportBody := c.requestBody
      events := c.events ++ [ControllerEvent.error (RequestError.transport e)] }

/-- The branch after the inspection emission settles: a recorded mock is
synthesized into a "response" event (the buffered body is discarded and the
transport is never touched); otherwise the passthrough path opens the
transport. -/
def finishInspection (c : Controller)
    (transport : Except InterceptedError ResponseDescriptor) : Controller :=
  match c.outcome with
  | some r =>
    { c with
      state := LifecycleState.responded
      events := c.events ++ [ControllerEvent.response r] }
  | none => openTransport c transport

/-- `end(finalChunk?)`: appends the final chunk, transitions to
`INSPECTING`, runs the inspection emission, then takes the mock or
passthrough branch.  Calling `end` in any later state is a no-op. -/
def endRequest (c : Controller) (finalChunk : Option String)
    (listeners : List (List ResponseDescriptor))
    (transport : Except InterceptedError ResponseDescriptor) : Controller :=
  if c.state = LifecycleState.created then
    finishInspection
      (runInspection
        { c with
          requestBody := c.requestBody ++ finalChunk.toList
          state := LifecycleState.inspecting }
        listeners)
      transport
  else c

/-- One whole intercepted request: the target URL is resolved from the raw
options (a failure transitions directly to `ERRORED`); otherwise the writes
are buffered, `end` runs the inspection, and the mock or passthrough branch
completes the request. -/
def runRequest (options : Interceptors.ResolvedRequestOptions)
    (writes : List String) (finalChunk : Option String)
    (listeners : List (List ResponseDescriptor))
    (transport : Except InterceptedError ResponseDescriptor) : Controller :=
  match Interceptors.getUrlByRequestOptions options with
  | Except.error e =>
    { Controller.initial with
      state := LifecycleState.errored
      events := [ControllerEvent.error (RequestError.urlConstruction e)] }
  | Except.ok _ =>
    endRequest (writes.foldl writeChunk Controller.initial)
      finalChunk listeners transport

end Lifecycle

end Interceptors

/-!
Claim theorems.  Each theorem is stated over the embedded definitions
above; witnesses instantiate theorems with hypotheses at concrete inputs.
-/

namespace Interceptors

open Lifecycle

/-- Claim C2: for every option bag that contains a pre-built `uri` field,
the URL returned by `getUrlByRequestOptions` equals that URI exactly (same
href), and every other field of the option bag (protocol, host, hostname,
port, path, auth, agent) is ignored — the result is determined by the `uri`
alone, whatever the other fields hold. -/
theorem claim_C2_prebuilt_uri_wins
    (options : ResolvedRequestOptions) (u : URL)
    (h : options.uri = some u) :
    getUrlByRequestOptions options = Except.ok u := by
  unfold getUrlByRequestOptions
  rw [h]

/-- Witness for C2: a bag carrying a pre-built URI together with
conflicting values in every other field still resolves to the URI. -/
theorem claim_C2_witness :
    getUrlByRequestOptions
      { protocol := some "https:"
        host := some "ignored-host"
        hostname := some "ignored:1"
        port := some 999
        path := some "/ignored"
        auth := some "u:p"
        cert := some "cert"
        agent := AgentField.instanceAgent
          { protocol := some "https:", optionsPort := some 1, defaultPort := some 2 }
        uri := some { href := "http://a.b/c", protocol := "http:" } } =
      Except.ok { href := "http://a.b/c", protocol := "http:" } :=
  claim_C2_prebuilt_uri_wins _ _ rfl

/-- Claim C3: every host containing a raw colon that is not already
bracketed (does not start with `[` nor end with `]`), combined with any
resolved port, renders as the bracketed host followed by `:port`. -/
theorem claim_C3_raw_ipv6_bracketed
    (host : String) (port : Nat)
    (hc : strContainsChar host ':' = true)
    (hs : strBeginsWith host "[" = false)
    (he : strFinishesWith host "]" = false) :
    getHostname host (some port) = "[" ++ host ++ "]" ++ (":" ++ toString port) := by
  unfold getHostname isRawIPv6Address
  rw [hc, hs, he]
  rfl

/-- Witness for C3: host `::1` with port `8080` renders as `[::1]:8080`. -/
theorem claim_C3_witness :
    getHostname "::1" (some 8080) = "[::1]:8080" :=
  (claim_C3_raw_ipv6_bracketed "::1" 8080 (by decide) (by decide) (by decide)).trans
    (by decide)

/-- Counterexample to C4 as stated: the bag `{ port: 0, hostname:
"srv:8080" }` carries an explicit `port` field, yet the resolver returns
the hostname-embedded port `8080` instead — the explicit `port` does not
win, because `if (options.port)` treats `0` as absent (JS truthiness). -/
theorem claim_C4_counterexample :
    ({ port := some 0, hostname := some "srv:8080" } :
        ResolvedRequestOptions).uri = none ∧
    ({ port := some 0, hostname := some "srv:8080" } :
        ResolvedRequestOptions).port = some 0 ∧
    getPortByRequestOptions
      { port := some 0, hostname := some "srv:8080" } = some 8080 := by
  refine ⟨rfl, rfl, ?_⟩
  decide

/-- Claim C4 (amended): for every option bag without a pre-built URI, the
resolved port follows this precedence — a *nonzero* explicit `port` field
wins; else a port embedded in a `host:port`-shaped hostname; else the
connection agent's *nonzero* own port, then its *nonzero* default port;
else the port is left undefined.  (An explicit `port` of `0` is treated as
absent by the resolver's truthiness check.) -/
theorem claim_C4_port_precedence
    (o : ResolvedRequestOptions) (_hu : o.uri = none) :
    (∀ p, o.port = some p → p ≠ 0 → getPortByRequestOptions o = some p) ∧
    (jsTruthyNat o.port = false →
      ∀ h ds, o.hostname = some h → matchPortSuffix h = some ds →
        getPortByRequestOptions o = some (digitsToNat ds)) ∧
    (jsTruthyNat o.port = false →
      (∀ h, o.hostname = some h → matchPortSuffix h = none) →
      ∀ a, getAgent o = some a →
        (∀ q, a.optionsPort = some q → q ≠ 0 →
          getPortByRequestOptions o = some q) ∧
        (jsTruthyNat a.optionsPort = false →
          ∀ q, a.defaultPort = some q → q ≠ 0 →
            getPortByRequestOptions o = some q)) ∧
    (jsTruthyNat o.port = false →
      (∀ h, o.hostname = some h → matchPortSuffix h = none) →
      (∀ a, getAgent o = some a →
        jsTruthyNat a.optionsPort = false ∧ jsTruthyNat a.defaultPort = false) →
      getPortByRequestOptions o = none) := by
  have hostnone :
      (∀ h, o.hostname = some h → matchPortSuffix h = none) →
      portFromHostname o = none := by
    intro hno
    cases hh : o.hostname with
    | none => simp [portFromHostname, hh]
    | some h => simp [portFromHostname, hh, hno h hh]
  refine ⟨?_, ?_, ?_, ?_⟩
  · intro p hp hne
    have ht : jsTruthyNat (some p) = true := by simpa [jsTruthyNat] using hne
    simp [getPortByRequestOptions, hp, ht]
  · intro hf h ds hh hm
    simp [getPortByRequestOptions, hf, portFromHostname, hh, hm]
  · intro hf hno a ha
    have hph := hostnone hno
    constructor
    · intro q hq hqne
      have hqt : jsTruthyNat (some q) = true := by simpa [jsTruthyNat] using hqne
      simp [getPortByRequestOptions, hf, hph, portFromAgent, ha, hq, hqt]
    · intro hqf q hq hqne
      have hqt : jsTruthyNat (some q) = true := by simpa [jsTruthyNat] using hqne
      simp [getPortByRequestOptions, hf, hph, portFromAgent, ha, hqf, hq, hqt]
  · intro hf hno hag
    have hph := hostnone hno
    cases ha : getAgent o with
    | none => simp [getPortByRequestOptions, hf, hph, portFromAgent, ha]
    | some a =>
      have h2 := hag a ha
      simp [getPortByRequestOptions, hf, hph, portFromAgent, ha, h2.1, h2.2]

/-- Witness for C4 (amended): a nonzero explicit port wins over a
hostname-embedded one, and a zero agent port is skipped in favor of the
agent's default port. -/
theorem claim_C4_witness :
    getPortByRequestOptions
      { port := some 8080, hostname := some "srv:9999" } = some 8080 ∧
    getPortByRequestOptions
      { agent := AgentField.instanceAgent
          { protocol := none, optionsPort := some 0, defaultPort := some 80 } } =
      some 80 :=
  ⟨(claim_C4_port_precedence
      { port := some 8080, hostname := some "srv:9999" } rfl).1
      8080 rfl (by decide),
   ((claim_C4_port_precedence
      { agent := AgentField.instanceAgent
          { protocol := none, optionsPort := some 0, defaultPort := some 80 } }
      rfl).2.2.1 rfl (fun h hh => nomatch hh) _ rfl).2 rfl 80 rfl (by decide)⟩

/-- Counterexample to C5 as stated: the bag `{ protocol: "" }` carries an
explicit `protocol` field, yet the resolver returns the default `http:`
instead of the explicit empty string — `if (options.protocol)` treats the
empty string as absent (JS truthiness). -/
theorem claim_C5_counterexample :
    ({ protocol := some "" } : ResolvedRequestOptions).protocol = some "" ∧
    getProtocolByRequestOptions { protocol := some "" } = "http:" ∧
    ("http:" : String) ≠ "" := by
  refine ⟨rfl, by decide, by decide⟩

/-- Claim C5 (amended): for every option bag without a pre-built URI, the
resolved protocol follows this precedence — a *nonempty* explicit
`protocol` field wins; else the *nonempty* protocol of the connection-agent
hint; else `https:` when a truthy TLS certificate option is present or the
resolved port equals 443; else `http:` (the pre-built URI's protocol clause
is vacuous since the URI is absent).  (An empty-string `protocol` is
treated as absent by the resolver's truthiness check.) -/
theorem claim_C5_protocol_precedence
    (o : ResolvedRequestOptions) (hu : o.uri = none) :
    (∀ p, o.protocol = some p → p ≠ "" → getProtocolByRequestOptions o = p) ∧
    (jsTruthyStr o.protocol = false →
      ∀ a ap, getAgent o = some a → a.protocol = some ap → ap ≠ "" →
        getProtocolByRequestOptions o = ap) ∧
    (jsTruthyStr o.protocol = false →
      jsTruthyStr ((getAgent o).bind (fun a => a.protocol)) = false →
      (jsTruthyStr o.cert = true ∨ getPortByRequestOptions o = some SSL_PORT) →
      getProtocolByRequestOptions o = "https:") ∧
    (jsTruthyStr o.protocol = false →
      jsTruthyStr ((getAgent o).bind (fun a => a.protocol)) = false →
      jsTruthyStr o.cert = false →
      getPortByRequestOptions o ≠ some SSL_PORT →
      getProtocolByRequestOptions o = "http:") := by
  refine ⟨?_, ?_, ?_, ?_⟩
  · intro p hp hne
    have ht : jsTruthyStr (some p) = true := by simpa [jsTruthyStr] using hne
    simp [getProtocolByRequestOptions, hp, ht]
  · intro hf a ap ha hap hne
    have ht : jsTruthyStr (some ap) = true := by simpa [jsTruthyStr] using hne
    simp [getProtocolByRequestOptions, hf, ha, hap, ht]
  · intro hf haf hsec
    rcases hsec with hc | hp443
    · simp [getProtocolByRequestOptions, hf, haf, hc]
    · simp [getProtocolByRequestOptions, hf, haf, hp443]
  · intro hf haf hcf hne
    have hb : (getPortByRequestOptions o == some SSL_PORT) = false := by
      simpa using hne
    have hn : jsTruthyStr none = false := rfl
    simp [getProtocolByRequestOptions, hf, haf, hcf, hb, hu, hn, DEFAULT_PROTOCOL]

/-- Witness for C5 (amended): a nonempty explicit protocol wins, and a
truthy certificate forces `https:`. -/
theorem claim_C5_witness :
    getProtocolByRequestOptions { protocol := some "ws:" } = "ws:" ∧
    getProtocolByRequestOptions { cert := some "pem" } = "https:" :=
  ⟨(claim_C5_protocol_precedence { protocol := some "ws:" } rfl).1
      "ws:" rfl (by decide),
   (claim_C5_protocol_precedence { cert := some "pem" } rfl).2.2.1
      rfl rfl (Or.inl (by decide))⟩

/-- Claim C6: URL resolution never throws when optional fields are absent —
the all-empty option bag resolves to `http://localhost/` — and it fails
only when the final assembled string is not a syntactically valid absolute
URL, the failure being a `UrlConstructionError` carrying that string (the
pre-built-URI branch never fails). -/
theorem claim_C6_failure_mode :
    getUrlByRequestOptions {} =
      Except.ok { href := "http://localhost/", protocol := "http:" } ∧
    (∀ (options : ResolvedRequestOptions) (e : UrlConstructionError),
      getUrlByRequestOptions options = Except.error e →
        options.uri = none ∧ isValidAbsoluteUrlString e.input = false) := by
  constructor
  · rfl
  · intro options e h
    unfold getUrlByRequestOptions at h
    cases hu : options.uri with
    | some u =>
      rw [hu] at h
      simp at h
    | none =>
      refine ⟨rfl, ?_⟩
      simp only [hu] at h
      split at h
      next hcond => simp at h
      next hcond =>
        have he : ({ input := assembledUrlString options } :
            UrlConstructionError) = e := Except.error.inj h
        subst he
        simpa using hcond

/-- Witness for C6: the bag `{ hostname: "" }` assembles `http:///`, which
is not a valid absolute URL, and the resolution fails with a
`UrlConstructionError` carrying that string. -/
theorem claim_C6_witness :
    ({ hostname := some "" } : ResolvedRequestOptions).uri = none ∧
    isValidAbsoluteUrlString "http:///" = false :=
  claim_C6_failure_mode.2 { hostname := some "" } { input := "http:///" } rfl

/-- Splitting a character list made of digits, a colon, and a remainder:
`takeWhile isDigit` keeps exactly the digits and `dropWhile` stops at the
colon. -/
lemma span_digits (d rest : List Char) (hd : ∀ c ∈ d, c.isDigit = true) :
    (d ++ ':' :: rest).takeWhile Char.isDigit = d ∧
    (d ++ ':' :: rest).dropWhile Char.isDigit = ':' :: rest := by
  induction d with
  | nil =>
    have hc : Char.isDigit ':' = false := by decide
    simp [List.takeWhile_cons, List.dropWhile_cons, hc]
  | cons x xs ih =>
    have hx : x.isDigit = true := hd x (List.mem_cons_self x xs)
    have ih2 := ih (fun c hc => hd c (List.mem_cons_of_mem x hc))
    simp [List.takeWhile_cons, List.dropWhile_cons, hx, ih2.1, ih2.2]

/-- The regex `/:(\d+)$/` on `host ++ ":" ++ digits` captures exactly the
digits, and `replace(/:\d+$/, '')` strips exactly the `:digits` suffix. -/
lemma matchPortSuffix_concat (host ds : String)
    (hne : ds.data ≠ []) (hd : ∀ c ∈ ds.data, c.isDigit = true) :
    matchPortSuffix (host ++ ":" ++ ds) = some ds.data ∧
    stripTrailingPort (host ++ ":" ++ ds) = host := by
  have hdata : (host ++ ":" ++ ds).data = host.data ++ ':' :: ds.data := by
    simp [String.data_append]
  have hrev : (host ++ ":" ++ ds).data.reverse
      = ds.data.reverse ++ ':' :: host.data.reverse := by
    rw [hdata]
    simp
  have hd2 : ∀ c ∈ ds.data.reverse, c.isDigit = true := by
    intro c hc
    exact hd c (List.mem_reverse.mp hc)
  have hspan := span_digits ds.data.reverse host.data.reverse hd2
  have hne2 : ds.data.reverse ≠ [] := by
    simpa using hne
  constructor
  · simp only [matchPortSuffix, hrev, hspan.1, hspan.2]
    simp [hne2]
  · simp only [stripTrailingPort, hrev, hspan.1, hspan.2]
    rw [if_pos ⟨hne2, rfl⟩]
    apply String.ext
    simp

/-- Claim C10: for every option bag with no explicit `port` whose
`hostname` ends in a colon followed by one or more digits, the resolver
interprets those trailing digits as the port and strips them from the host
— even for an unbracketed IPv6 literal such as `::1`, which yields host `:`
and port 1. -/
theorem claim_C10_trailing_digits
    (o : ResolvedRequestOptions) (host ds : String)
    (hp : o.port = none)
    (hh : o.hostname = some (host ++ ":" ++ ds))
    (hne : ds.data ≠ []) (hd : ∀ c ∈ ds.data, c.isDigit = true) :
    getPortByRequestOptions o = some (digitsToNat ds.data) ∧
    getHostByRequestOptions o = host := by
  have hm := matchPortSuffix_concat host ds hne hd
  constructor
  · simp [getPortByRequestOptions, hp, jsTruthyNat, portFromHostname, hh, hm.1]
  · simp [getHostByRequestOptions, hh, hm.2]

/-- Witness for C10: hostname `::1` with no explicit port yields host `:`
and port 1. -/
theorem claim_C10_witness :
    getPortByRequestOptions { hostname := some "::1" } = some 1 ∧
    getHostByRequestOptions { hostname := some "::1" } = ":" := by
  have h := claim_C10_trailing_digits { hostname := some "::1" } ":" "1"
    rfl rfl (by decide) (by decide)
  exact ⟨h.1, h.2⟩


/-- `respondWith` only ever touches the recorded outcome: every other
observable field of the controller is preserved. -/
lemma respondWith_preserves (c : Lifecycle.Controller)
    (r : Lifecycle.ResponseDescriptor) :
    (Lifecycle.respondWith c r).state = c.state ∧
    (Lifecycle.respondWith c r).events = c.events ∧
    (Lifecycle.respondWith c r).transportOpenCalls = c.transportOpenCalls ∧
    (Lifecycle.respondWith c r).transportBody = c.transportBody ∧
    (Lifecycle.respondWith c r).requestBody = c.requestBody := by
  unfold Lifecycle.respondWith
  split <;> exact ⟨rfl, rfl, rfl, rfl, rfl⟩

/-- Running one listener (a sequence of `respondWith` calls) preserves
every field but the outcome. -/
lemma runListener_preserves (l : List Lifecycle.ResponseDescriptor)
    (c : Lifecycle.Controller) :
    (Lifecycle.runListener c l).state = c.state ∧
    (Lifecycle.runListener c l).events = c.events ∧
    (Lifecycle.runListener c l).transportOpenCalls = c.transportOpenCalls ∧
    (Lifecycle.runListener c l).transportBody = c.transportBody ∧
    (Lifecycle.runListener c l).requestBody = c.requestBody := by
  induction l generalizing c with
  | nil => exact ⟨rfl, rfl, rfl, rfl, rfl⟩
  | cons x xs ih =>
    have h1 := respondWith_preserves c x
    have h2 := ih (Lifecycle.respondWith c x)
    exact ⟨h2.1.trans h1.1, h2.2.1.trans h1.2.1,
      h2.2.2.1.trans h1.2.2.1, h2.2.2.2.1.trans h1.2.2.2.1,
      h2.2.2.2.2.trans h1.2.2.2.2⟩

/-- The inspection emission preserves every field but the outcome. -/
lemma runInspection_preserves
    (ls : List (List Lifecycle.ResponseDescriptor)) (c : Lifecycle.Controller) :
    (Lifecycle.runInspection c ls).state = c.state ∧
    (Lifecycle.runInspection c ls).events = c.events ∧
    (Lifecycle.runInspection c ls).transportOpenCalls = c.transportOpenCalls ∧
    (Lifecycle.runInspection c ls).transportBody = c.transportBody ∧
    (Lifecycle.runInspection c ls).requestBody = c.requestBody := by
  induction ls generalizing c with
  | nil => exact ⟨rfl, rfl, rfl, rfl, rfl⟩
  | cons x xs ih =>
    have h1 := runListener_preserves x c
    have h2 := ih (Lifecycle.runListener c x)
    exact ⟨h2.1.trans h1.1, h2.2.1.trans h1.2.1,
      h2.2.2.1.trans h1.2.2.1, h2.2.2.2.1.trans h1.2.2.2.1,
      h2.2.2.2.2.trans h1.2.2.2.2⟩

/-- `write` only ever touches the buffered request body. -/
lemma writeChunk_preserves (c : Lifecycle.Controller) (chunk : String) :
    (Lifecycle.writeChunk c chunk).state = c.state ∧
    (Lifecycle.writeChunk c chunk).outcome = c.outcome ∧
    (Lifecycle.writeChunk c chunk).events = c.events ∧
    (Lifecycle.writeChunk c chunk).transportOpenCalls = c.transportOpenCalls ∧
    (Lifecycle.writeChunk c chunk).transportBody = c.transportBody := by
  unfold Lifecycle.writeChunk
  split <;> exact ⟨rfl, rfl, rfl, rfl, rfl⟩

/-- A sequence of `write` calls only ever touches the buffered body. -/
lemma foldl_writeChunk_preserves (ws : List String) (c : Lifecycle.Controller) :
    (ws.foldl Lifecycle.writeChunk c).state = c.state ∧
    (ws.foldl Lifecycle.writeChunk c).outcome = c.outcome ∧
    (ws.foldl Lifecycle.writeChunk c).events = c.events ∧
    (ws.foldl Lifecycle.writeChunk c).transportOpenCalls = c.transportOpenCalls ∧
    (ws.foldl Lifecycle.writeChunk c).transportBody = c.transportBody := by
  induction ws generalizing c with
  | nil => exact ⟨rfl, rfl, rfl, rfl, rfl⟩
  | cons w ws ih =>
    have h1 := writeChunk_preserves c w
    have h2 := ih (Lifecycle.writeChunk c w)
    exact ⟨h2.1.trans h1.1, h2.2.1.trans h1.2.1,
      h2.2.2.1.trans h1.2.2.1, h2.2.2.2.1.trans h1.2.2.2.1,
      h2.2.2.2.2.trans h1.2.2.2.2⟩

/-- While the request is open, `write` calls append their chunks to the
buffered body in order. -/
lemma foldl_writeChunk_requestBody (ws : List String) (c : Lifecycle.Controller)
    (h : c.state = Lifecycle.LifecycleState.created) :
    (ws.foldl Lifecycle.writeChunk c).requestBody = c.requestBody ++ ws := by
  induction ws generalizing c with
  | nil => simp
  | cons w ws ih =>
    have hw : Lifecycle.writeChunk c w =
        { c with requestBody := c.requestBody ++ [w] } := by
      unfold Lifecycle.writeChunk
      rw [if_pos h]
    simp only [List.foldl_cons, hw]
    rw [ih { c with requestBody := c.requestBody ++ [w] } h]
    simp

/-- When the recorded outcome is a mock, settling the inspection
synthesizes the "response" event and leaves the transport untouched. -/
lemma finishInspection_mock (c : Lifecycle.Controller)
    (tr : Except Lifecycle.InterceptedError Lifecycle.ResponseDescriptor)
    (r : Lifecycle.ResponseDescriptor) (h : c.outcome = some r) :
    Lifecycle.finishInspection c tr =
      { c with
        state := Lifecycle.LifecycleState.responded
        events := c.events ++ [Lifecycle.ControllerEvent.response r] } := by
  simp only [Lifecycle.finishInspection, h]

/-- When no outcome was recorded, settling the inspection opens the real
transport. -/
lemma finishInspection_passthrough (c : Lifecycle.Controller)
    (tr : Except Lifecycle.InterceptedError Lifecycle.ResponseDescriptor)
    (h : c.outcome = none) :
    Lifecycle.finishInspection c tr = Lifecycle.openTransport c tr := by
  simp only [Lifecycle.finishInspection, h]

/-- Field-level description of `openTransport`: exactly one open call is
added, the buffered body is replayed, the outcome is untouched, the state
becomes terminal, and exactly one terminal event is appended. -/
lemma openTransport_fields (c : Lifecycle.Controller)
    (tr : Except Lifecycle.InterceptedError Lifecycle.ResponseDescriptor) :
    (Lifecycle.openTransport c tr).transportOpenCalls = c.transportOpenCalls + 1 ∧
    (Lifecycle.openTransport c tr).transportBody = c.requestBody ∧
    (Lifecycle.openTransport c tr).outcome = c.outcome ∧
    ((Lifecycle.openTransport c tr).state = Lifecycle.LifecycleState.responded ∨
     (Lifecycle.openTransport c tr).state = Lifecycle.LifecycleState.errored) ∧
    ((∃ r, (Lifecycle.openTransport c tr).events
        = c.events ++ [Lifecycle.ControllerEvent.response r]) ∨
     (∃ e, (Lifecycle.openTransport c tr).events
        = c.events ++ [Lifecycle.ControllerEvent.error e])) := by
  cases tr with
  | ok r => exact ⟨rfl, rfl, rfl, Or.inl rfl, Or.inl ⟨r, rfl⟩⟩
  | error e => exact ⟨rfl, rfl, rfl, Or.inr rfl, Or.inr ⟨_, rfl⟩⟩

/-- When the URL resolves, a whole request run settles an inspection on a
controller that has buffered the writes and the final chunk, emitted no
event yet, and never touched the transport. -/
lemma runRequest_ok_spec (options : ResolvedRequestOptions)
    (ws : List String) (fin : Option String)
    (ls : List (List Lifecycle.ResponseDescriptor))
    (tr : Except Lifecycle.InterceptedError Lifecycle.ResponseDescriptor)
    (u : URL) (hurl : getUrlByRequestOptions options = Except.ok u) :
    ∃ mid : Lifecycle.Controller,
      Lifecycle.runRequest options ws fin ls tr =
        Lifecycle.finishInspection mid tr ∧
      mid.events = [] ∧ mid.transportOpenCalls = 0 ∧
      mid.transportBody = [] ∧ mid.requestBody = ws ++ fin.toList := by
  have hp := foldl_writeChunk_preserves ws Lifecycle.Controller.initial
  have hrb := foldl_writeChunk_requestBody ws Lifecycle.Controller.initial rfl
  have hstate : (List.foldl Lifecycle.writeChunk Lifecycle.Controller.initial
      ws).state = Lifecycle.LifecycleState.created := hp.1
  simp only [Lifecycle.runRequest, hurl]
  unfold Lifecycle.endRequest
  rw [if_pos hstate]
  refine ⟨_, rfl, ?_, ?_, ?_, ?_⟩
  · exact ((runInspection_preserves ls _).2.1).trans hp.2.2.1
  · exact ((runInspection_preserves ls _).2.2.1).trans hp.2.2.2.1
  · exact ((runInspection_preserves ls _).2.2.2.1).trans hp.2.2.2.2
  · refine ((runInspection_preserves ls _).2.2.2.2).trans ?_
    show (ws.foldl Lifecycle.writeChunk Lifecycle.Controller.initial).requestBody
        ++ fin.toList = ws ++ fin.toList
    rw [hrb]
    simp [Lifecycle.Controller.initial]

/-- When the URL fails to resolve, the whole run ends errored with the
single URL-construction error event. -/
lemma runRequest_error_spec (options : ResolvedRequestOptions)
    (ws : List String) (fin : Option String)
    (ls : List (List Lifecycle.ResponseDescriptor))
    (tr : Except Lifecycle.InterceptedError Lifecycle.ResponseDescriptor)
    (e : UrlConstructionError)
    (hurl : getUrlByRequestOptions options = Except.error e) :
    Lifecycle.runRequest options ws fin ls tr =
      { Lifecycle.Controller.initial with
        state := Lifecycle.LifecycleState.errored
        events := [Lifecycle.ControllerEvent.error
          (Lifecycle.RequestError.urlConstruction e)] } := by
  simp only [Lifecycle.runRequest, hurl]


/-- Claim C1 (controller modelled from the spec): for every request whose
inspection recorded a mocked response, the real transport is never invoked
(zero transport-open calls) and the only event emitted is the "response"
event carrying exactly the installed ResponseDescriptor (status, headers
and body included) — in particular no error event is ever emitted. -/
theorem claim_C1_mock_never_opens_transport
    (options : ResolvedRequestOptions) (ws : List String) (fin : Option String)
    (ls : List (List Lifecycle.ResponseDescriptor))
    (tr : Except Lifecycle.InterceptedError Lifecycle.ResponseDescriptor)
    (r : Lifecycle.ResponseDescriptor)
    (h : (Lifecycle.runRequest options ws fin ls tr).outcome = some r) :
    (Lifecycle.runRequest options ws fin ls tr).transportOpenCalls = 0 ∧
    (Lifecycle.runRequest options ws fin ls tr).events
      = [Lifecycle.ControllerEvent.response r] := by
  cases hurl : getUrlByRequestOptions options with
  | error e =>
    rw [runRequest_error_spec options ws fin ls tr e hurl] at h
    exact absurd h (by simp [Lifecycle.Controller.initial])
  | ok u =>
    obtain ⟨mid, hrun, hev, hopen, htb, hrb⟩ :=
      runRequest_ok_spec options ws fin ls tr u hurl
    rw [hrun] at h ⊢
    cases hmid : mid.outcome with
    | none =>
      rw [finishInspection_passthrough mid tr hmid] at h
      rw [(openTransport_fields mid tr).2.2.1, hmid] at h
      exact absurd h (by simp)
    | some r2 =>
      rw [finishInspection_mock mid tr r2 hmid] at h ⊢
      have h2 : mid.outcome = some r := h
      rw [hmid] at h2
      obtain rfl : r2 = r := Option.some.inj h2
      refine ⟨hopen, ?_⟩
      show mid.events ++ [Lifecycle.ControllerEvent.response r2] = _
      rw [hev]
      rfl

/-- Witness for C1: a listener installs a 301 mock while the transport
would report a DNS failure; the run opens the transport zero times and
emits exactly the mocked response. -/
theorem claim_C1_witness :
    (Lifecycle.runRequest {} [] none
      [[{ status := 301
          statusText := "Moved"
          headers := [("x-custom-header", "yes")]
          body := ["mocked-response"] }]]
      (Except.error
        { kind := Lifecycle.InterceptedErrorKind.dnsNotFound
          syscall := "getaddrinfo" })).transportOpenCalls = 0 ∧
    (Lifecycle.runRequest {} [] none
      [[{ status := 301
          statusText := "Moved"
          headers := [("x-custom-header", "yes")]
          body := ["mocked-response"] }]]
      (Except.error
        { kind := Lifecycle.InterceptedErrorKind.dnsNotFound
          syscall := "getaddrinfo" })).events
      = [Lifecycle.ControllerEvent.response
          { status := 301
            statusText := "Moved"
            headers := [("x-custom-header", "yes")]
            body := ["mocked-response"] }] :=
  claim_C1_mock_never_opens_transport {} [] none
    [[{ status := 301
        statusText := "Moved"
        headers := [("x-custom-header", "yes")]
        body := ["mocked-response"] }]]
    (Except.error
      { kind := Lifecycle.InterceptedErrorKind.dnsNotFound
        syscall := "getaddrinfo" })
    { status := 301
      statusText := "Moved"
      headers := [("x-custom-header", "yes")]
      body := ["mocked-response"] }
    rfl

/-- Claim C7 (controller modelled from the spec): for every request with no
mock installed, the transport is opened exactly once and receives the
buffered body chunks in the exact order and concatenation as written. -/
theorem claim_C7_passthrough_replays_body
    (options : ResolvedRequestOptions) (ws : List String) (fin : Option String)
    (ls : List (List Lifecycle.ResponseDescriptor))
    (tr : Except Lifecycle.InterceptedError Lifecycle.ResponseDescriptor)
    (u : URL)
    (hurl : getUrlByRequestOptions options = Except.ok u)
    (hout : (Lifecycle.runRequest options ws fin ls tr).outcome = none) :
    (Lifecycle.runRequest options ws fin ls tr).transportOpenCalls = 1 ∧
    (Lifecycle.runRequest options ws fin ls tr).transportBody
      = ws ++ fin.toList := by
  obtain ⟨mid, hrun, hev, hopen, htb, hrb⟩ :=
    runRequest_ok_spec options ws fin ls tr u hurl
  rw [hrun] at hout ⊢
  cases hmid : mid.outcome with
  | some r2 =>
    rw [finishInspection_mock mid tr r2 hmid] at hout
    have h2 : mid.outcome = none := hout
    rw [hmid] at h2
    exact absurd h2 (by simp)
  | none =>
    rw [finishInspection_passthrough mid tr hmid]
    have hf := openTransport_fields mid tr
    refine ⟨?_, ?_⟩
    · rw [hf.1, hopen]
    · rw [hf.2.1, hrb]

/-- Witness for C7: writes `"one"`, `"two"` and `end("three")` with no
listener reach the transport as `["one", "two", "three"]`, i.e. the
concatenation `onetwothree`. -/
theorem claim_C7_witness :
    (Lifecycle.runRequest {} ["one", "two"] (some "three") []
      (Except.ok
        { status := 200
          statusText := "OK"
          headers := []
          body := ["original-response"] })).transportOpenCalls = 1 ∧
    (Lifecycle.runRequest {} ["one", "two"] (some "three") []
      (Except.ok
        { status := 200
          statusText := "OK"
          headers := []
          body := ["original-response"] })).transportBody
      = ["one", "two", "three"] ∧
    String.join ["one", "two", "three"] = "onetwothree" := by
  have h := claim_C7_passthrough_replays_body {} ["one", "two"] (some "three")
    []
    (Except.ok
      { status := 200
        statusText := "OK"
        headers := []
        body := ["original-response"] })
    { href := "http://localhost/", protocol := "http:" } rfl rfl
  exact ⟨h.1, h.2, by decide⟩

/-- A completed run is terminal: its state is `RESPONDED` or `ERRORED` and
its event log is a single "response" or a single "error" event. -/
lemma runRequest_terminal (options : ResolvedRequestOptions)
    (ws : List String) (fin : Option String)
    (ls : List (List Lifecycle.ResponseDescriptor))
    (tr : Except Lifecycle.InterceptedError Lifecycle.ResponseDescriptor) :
    ((Lifecycle.runRequest options ws fin ls tr).state
        = Lifecycle.LifecycleState.responded ∨
     (Lifecycle.runRequest options ws fin ls tr).state
        = Lifecycle.LifecycleState.errored) ∧
    ((∃ r, (Lifecycle.runRequest options ws fin ls tr).events
        = [Lifecycle.ControllerEvent.response r]) ∨
     (∃ e, (Lifecycle.runRequest options ws fin ls tr).events
        = [Lifecycle.ControllerEvent.error e])) := by
  cases hurl : getUrlByRequestOptions options with
  | error e =>
    rw [runRequest_error_spec options ws fin ls tr e hurl]
    exact ⟨Or.inr rfl, Or.inr ⟨_, rfl⟩⟩
  | ok u =>
    obtain ⟨mid, hrun, hev, hopen, htb, hrb⟩ :=
      runRequest_ok_spec options ws fin ls tr u hurl
    rw [hrun]
    cases hmid : mid.outcome with
    | some r =>
      rw [finishInspection_mock mid tr r hmid]
      refine ⟨Or.inl rfl, Or.inl ⟨r, ?_⟩⟩
      show mid.events ++ [Lifecycle.ControllerEvent.response r] = _
      rw [hev]
      rfl
    | none =>
      rw [finishInspection_passthrough mid tr hmid]
      have hf := openTransport_fields mid tr
      refine ⟨hf.2.2.2.1, ?_⟩
      rcases hf.2.2.2.2 with ⟨r, hr⟩ | ⟨e, he⟩
      · refine Or.inl ⟨r, ?_⟩
        rw [hr, hev]
        rfl
      · refine Or.inr ⟨e, ?_⟩
        rw [he, hev]
        rfl

/-- Claim C8 (controller modelled from the spec): every request eventually
emits exactly one terminal event — either one "response" or one "error",
never both — and after completion every further operation (`write`, the
mock-setting operation, `end`) leaves the controller unchanged, so no
further response or error event can occur. -/
theorem claim_C8_one_terminal_event (options : ResolvedRequestOptions)
    (ws : List String) (fin : Option String)
    (ls : List (List Lifecycle.ResponseDescriptor))
    (tr : Except Lifecycle.InterceptedError Lifecycle.ResponseDescriptor) :
    ((∃ r, (Lifecycle.runRequest options ws fin ls tr).events
        = [Lifecycle.ControllerEvent.response r]) ∨
     (∃ e, (Lifecycle.runRequest options ws fin ls tr).events
        = [Lifecycle.ControllerEvent.error e])) ∧
    (∀ chunk,
      Lifecycle.writeChunk (Lifecycle.runRequest options ws fin ls tr) chunk
        = Lifecycle.runRequest options ws fin ls tr) ∧
    (∀ r,
      Lifecycle.respondWith (Lifecycle.runRequest options ws fin ls tr) r
        = Lifecycle.runRequest options ws fin ls tr) ∧
    (∀ fin2 ls2 tr2,
      Lifecycle.endRequest (Lifecycle.runRequest options ws fin ls tr) fin2 ls2 tr2
        = Lifecycle.runRequest options ws fin ls tr) := by
  have ht := runRequest_terminal options ws fin ls tr
  have hnc : ¬((Lifecycle.runRequest options ws fin ls tr).state
      = Lifecycle.LifecycleState.created) := by
    rcases ht.1 with h | h <;> simp [h]
  have hni : ¬((Lifecycle.runRequest options ws fin ls tr).state
      = Lifecycle.LifecycleState.inspecting) := by
    rcases ht.1 with h | h <;> simp [h]
  refine ⟨ht.2, ?_, ?_, ?_⟩
  · intro chunk
    unfold Lifecycle.writeChunk
    rw [if_neg hnc]
  · intro r
    unfold Lifecycle.respondWith
    rw [if_neg (fun hc => hni hc.1)]
  · intro fin2 ls2 tr2
    unfold Lifecycle.endRequest
    rw [if_neg hnc]

/-- Claim C9 (controller modelled from the spec): the mock-setting
operation records only the first descriptor — a second call within the same
inspection changes nothing — any call finding an outcome already recorded
changes nothing, and any call outside the `INSPECTING` state changes
nothing. -/
theorem claim_C9_respond_first_wins :
    (∀ (c : Lifecycle.Controller) (r1 r2 : Lifecycle.ResponseDescriptor),
      c.state = Lifecycle.LifecycleState.inspecting → c.outcome = none →
        Lifecycle.respondWith (Lifecycle.respondWith c r1) r2
          = Lifecycle.respondWith c r1 ∧
        (Lifecycle.respondWith c r1).outcome = some r1) ∧
    (∀ (c : Lifecycle.Controller) (r : Lifecycle.ResponseDescriptor),
      c.outcome ≠ none → Lifecycle.respondWith c r = c) ∧
    (∀ (c : Lifecycle.Controller) (r : Lifecycle.ResponseDescriptor),
      c.state ≠ Lifecycle.LifecycleState.inspecting →
        Lifecycle.respondWith c r = c) := by
  refine ⟨?_, ?_, ?_⟩
  · intro c r1 r2 hs ho
    have h1 : Lifecycle.respondWith c r1 = { c with outcome := some r1 } := by
      unfold Lifecycle.respondWith
      rw [if_pos ⟨hs, ho⟩]
    refine ⟨?_, by rw [h1]⟩
    rw [h1]
    unfold Lifecycle.respondWith
    rw [if_neg (fun hc => Option.noConfusion hc.2)]
  · intro c r h
    unfold Lifecycle.respondWith
    rw [if_neg (fun hc => h hc.2)]
  · intro c r h
    unfold Lifecycle.respondWith
    rw [if_neg (fun hc => h hc.1)]

/-- Witness for C9: on an inspecting controller with no outcome, a second
`respondWith` is a no-op and the first descriptor stays recorded. -/
theorem claim_C9_witness :
    Lifecycle.respondWith
        (Lifecycle.respondWith
          { state := Lifecycle.LifecycleState.inspecting
            requestBody := []
            outcome := none
            events := []
            transportOpenCalls := 0
            transportBody := [] }
          { status := 201
            statusText := "A"
            headers := []
            body := ["first"] })
        { status := 404
          statusText := "B"
          headers := []
          body := ["second"] }
      = Lifecycle.respondWith
          { state := Lifecycle.LifecycleState.inspecting
            requestBody := []
            outcome := none
            events := []
            transportOpenCalls := 0
            transportBody := [] }
          { status := 201
            statusText := "A"
            headers := []
            body := ["first"] } ∧
    (Lifecycle.respondWith
        { state := Lifecycle.LifecycleState.inspecting
          requestBody := []
          outcome := none
          events := []
          transportOpenCalls := 0
          transportBody := [] }
        { status := 201
          statusText := "A"
          headers := []
          body := ["first"] }).outcome
      = some
          { status := 201
            statusText := "A"
            headers := []
            body := ["first"] } :=
  claim_C9_respond_first_wins.1 _ _ _ rfl rfl

end Interceptors
